import Mathlib

/-!
Verification of the transport-agnostic service-hosting lifecycle of the
RMCP server in `src/main.rs` (repository `RGGH/xp_both_mcp`).

The single source file `src/main.rs` is embedded shallowly:

* `TransportType`, `Args`, the log-level `match`, and the two branches of
  `main`'s `match args.transport` become Lean definitions.
* External asynchronous outcomes (the stdio serve call, the wait for
  completion, the SSE listener start, the wait for Ctrl+C) are opaque to the
  host; they are modelled by an oracle (`World`) of boolean outcomes, and
  `runMain` folds `main`'s control flow over that oracle, returning the
  ordered list of lifecycle events the host performed before exiting
  together with the process's exit result.
* `SocketAddr` parsing (`args.bind_address.parse::<SocketAddr>()`) lives in
  the Rust standard library, outside this repository; it is modelled from
  the spec ("a network endpoint (host + port) string ... validated for
  syntactic correctness") following the standard library's grammar for IPv4
  socket addresses: four dot-separated decimal octets (at most three
  digits, no leading zeros, value at most 255) then a colon and a decimal
  port (leading zeros allowed, value below 65536). IPv6 literal forms are
  out of the modelled scope.
* The `Counter` service and the rmcp `SseServer.with_service` connection
  loop are likewise outside `src/`; they are modelled from the spec for the
  per-connection-freshness claim.
-/

/-- Digit value of a decimal character. -/
def digitVal (c : Char) : Nat := c.toNat - '0'.toNat

/-- The natural number denoted by a list of decimal digit characters
(most significant first). -/
def natOfDigits (l : List Char) : Nat :=
  l.foldl (fun a c => a * 10 + digitVal c) 0

/-- Splits a character list at the first occurrence of `':'`, mirroring how
the standard library's socket-address parser consumes the host part up to
the colon and the port after it.  `none` when no colon occurs. -/
def splitFirstColon : List Char → Option (List Char × List Char)
  | [] => none
  | c :: cs =>
    if c = ':' then some ([], cs)
    else (splitFirstColon cs).map (fun p => (c :: p.1, p.2))

/-- Splits a character list on a separator character (like Rust's
`split('.')` view of the IPv4 dotted-quad grammar): `splitOnSep '.' l`
returns the maximal separator-free groups of `l` in order. -/
def splitOnSep (sep : Char) : List Char → List (List Char)
  | [] => [[]]
  | c :: cs =>
    if c = sep then [] :: splitOnSep sep cs
    else
      match splitOnSep sep cs with
      | [] => [[c]]
      | g :: gs => (c :: g) :: gs

/-- Modelled from the spec / the standard library grammar for one IPv4
octet (the code that decides this, `impl FromStr for SocketAddr`, is not
under `src/`): a nonempty group of at most three decimal digits, without a
leading zero unless the group is exactly `"0"`, denoting a value at most
255. -/
def parseOctet (l : List Char) : Option Nat :=
  if l ≠ [] ∧ l.all Char.isDigit ∧ l.length ≤ 3 ∧
      (l.head? = some '0' → l = ['0']) ∧ natOfDigits l ≤ 255 then
    some (natOfDigits l)
  else none

/-- Modelled from the spec / the standard library grammar for the port of a
socket address: a nonempty group of decimal digits (leading zeros allowed)
denoting a value below 65536. -/
def parsePort (l : List Char) : Option Nat :=
  if l ≠ [] ∧ l.all Char.isDigit ∧ natOfDigits l < 65536 then
    some (natOfDigits l)
  else none

/-- An IPv4 address: four octets. -/
structure Ipv4Addr where
  o1 : Nat
  o2 : Nat
  o3 : Nat
  o4 : Nat
deriving DecidableEq, Repr

/-- A parsed socket address (host + port), the validated endpoint the SSE
branch of `main` binds to. -/
structure SocketAddr where
  ip : Ipv4Addr
  port : Nat
deriving DecidableEq, Repr

/-- Modelled from the spec: the IPv4 host grammar of the standard
library's socket-address parser — exactly four dot-separated octets. -/
def parseIpv4 (l : List Char) : Option Ipv4Addr :=
  match splitOnSep '.' l with
  | [a, b, c, d] =>
    match parseOctet a, parseOctet b, parseOctet c, parseOctet d with
    | some x, some y, some z, some w => some ⟨x, y, z, w⟩
    | _, _, _, _ => none
  | _ => none

/-- Modelled from the spec: `bind_address.parse::<SocketAddr>()` on the
character level — host part before the first colon, port after it,
consuming the whole input. -/
def parseSocketAddrChars (l : List Char) : Option SocketAddr :=
  match splitFirstColon l with
  | none => none
  | some (h, p) =>
    match parseIpv4 h, parsePort p with
    | some ip, some port => some ⟨ip, port⟩
    | _, _ => none

/-- Modelled from the spec: socket-address parsing on strings. -/
def parseSocketAddr (s : String) : Option SocketAddr :=
  parseSocketAddrChars s.data

/-- `enum TransportType { Stdio, Sse }` from `src/main.rs`. -/
inductive TransportType where
  | stdio
  | sse
deriving DecidableEq, Repr

/-- `struct Args` from `src/main.rs` (the parsed command line). -/
structure Args where
  transport : TransportType
  bind_address : String
  log_level : String

/-- `tracing::Level`, the five verbosity levels selected in `main`. -/
inductive Level where
  | trace
  | debug
  | info
  | warn
  | error
deriving DecidableEq, Repr

/-- The `match args.log_level.as_str()` of `src/main.rs` lines 48–55:
recognized names map to their level, everything else to `INFO`. -/
def levelOf (s : String) : Level :=
  match s with
  | "trace" => Level.trace
  | "debug" => Level.debug
  | "info" => Level.info
  | "warn" => Level.warn
  | "error" => Level.error
  | _ => Level.info

/-- The five failure sites of `main`, one per `?` / `return Err` in
`src/main.rs`. -/
inductive ProcessError where
  | addrParseError
  | sseServeError
  | stdioServeError
  | waitingError
  | ctrlCError
deriving DecidableEq, Repr

/-- The process's exit result: `Ok(())` (exit code zero) or an error
propagated out of `main` (non-zero exit). -/
inductive ExitResult where
  | ok
  | err (e : ProcessError)
deriving DecidableEq, Repr

/-- The spec's error taxonomy (section 7). -/
inductive SpecError where
  | configurationError
  | bindError
  | attachmentError
  | sessionError
deriving DecidableEq, Repr

/-- Classification of `main`'s failure sites under the spec taxonomy:
the bind-address parse failure is a ConfigurationError, the SSE listener
start failure a BindError, the stdio serve failure an AttachmentError, and
a failure while waiting (either `service.waiting()` in stdio mode or the
Ctrl+C wait in SSE mode) a SessionError. -/
def specClass : ProcessError → SpecError
  | ProcessError.addrParseError => SpecError.configurationError
  | ProcessError.sseServeError => SpecError.bindError
  | ProcessError.stdioServeError => SpecError.attachmentError
  | ProcessError.waitingError => SpecError.sessionError
  | ProcessError.ctrlCError => SpecError.sessionError

/-- Observable lifecycle events of `main`, in the order the host performs
them.  `counterConstructed` is the `Counter::new()` call of the stdio
branch; `stdioServeCalled` / `sseServeCalled` are the two transport
attachment calls; `listenerStarted` records `SseServer::serve` returning
`Ok`; `withService` the factory registration; `bindParseAttempted` the
`args.bind_address.parse()` call; `ctrlCAwaited` the completed wait on
`tokio::signal::ctrl_c()`; `cancelCalled` the `ct.cancel()` call. -/
inductive Event where
  | counterConstructed
  | stdioServeCalled
  | waitingCalled
  | bindParseAttempted
  | sseServeCalled
  | listenerStarted
  | withService
  | ctrlCAwaited
  | cancelCalled
deriving DecidableEq, Repr

/-- Oracle for the outcomes of the external asynchronous calls `main`
makes: whether `Counter::new().serve(stdio())` succeeds, whether
`service.waiting()` succeeds, whether `SseServer::serve(addr)` succeeds,
and whether `tokio::signal::ctrl_c()` resolves without error. -/
structure World where
  stdioServeOk : Bool
  waitingOk : Bool
  sseServeOk : Bool
  ctrlCOk : Bool
deriving DecidableEq, Repr

/-- Shallow embedding of `main` from `src/main.rs` (lines 43–114): the
ordered list of lifecycle events the host performs, and the exit result.
The trace is exactly what happened before the process exits, so an event's
membership in the trace states that it was issued before exit. -/
def runMain (args : Args) (w : World) : List Event × ExitResult :=
  match args.transport with
  | TransportType.stdio =>
    if w.stdioServeOk then
      if w.waitingOk then
        ([Event.counterConstructed, Event.stdioServeCalled,
          Event.waitingCalled], ExitResult.ok)
      else
        ([Event.counterConstructed, Event.stdioServeCalled,
          Event.waitingCalled], ExitResult.err ProcessError.waitingError)
    else
      ([Event.counterConstructed, Event.stdioServeCalled],
        ExitResult.err ProcessError.stdioServeError)
  | TransportType.sse =>
    match parseSocketAddr args.bind_address with
    | none => ([Event.bindParseAttempted],
        ExitResult.err ProcessError.addrParseError)
    | some _ =>
      if w.sseServeOk then
        if w.ctrlCOk then
          ([Event.bindParseAttempted, Event.sseServeCalled,
            Event.listenerStarted, Event.withService, Event.ctrlCAwaited,
            Event.cancelCalled], ExitResult.ok)
        else
          ([Event.bindParseAttempted, Event.sseServeCalled,
            Event.listenerStarted, Event.withService, Event.ctrlCAwaited],
            ExitResult.err ProcessError.ctrlCError)
      else
        ([Event.bindParseAttempted, Event.sseServeCalled],
          ExitResult.err ProcessError.sseServeError)

/-- The spec's view of one octet group of a bind address: a nonempty,
at-most-three-digit decimal group without a redundant leading zero, whose
written value is `n ≤ 255`. -/
def IsOctetStr (l : List Char) (n : Nat) : Prop :=
  l ≠ [] ∧ l.all Char.isDigit ∧ l.length ≤ 3 ∧
    (l.head? = some '0' → l = ['0']) ∧ natOfDigits l = n ∧ n ≤ 255

/-- The spec's view of the port group of a bind address: a nonempty decimal
group whose written value is `n < 65536`. -/
def IsPortStr (l : List Char) (n : Nat) : Prop :=
  l ≠ [] ∧ l.all Char.isDigit ∧ natOfDigits l = n ∧ n < 65536

/-- The spec's grammar of a valid bind address denoting the endpoint `a`:
four dot-separated octet groups, a colon, and a port group, where the
numbers written in the input are exactly the endpoint's host octets and
port ("an endpoint whose host/port match the input exactly"). -/
def BindAddrDenotes (l : List Char) (a : SocketAddr) : Prop :=
  ∃ g1 g2 g3 g4 p,
    l = g1 ++ '.' :: (g2 ++ '.' :: (g3 ++ '.' :: (g4 ++ ':' :: p))) ∧
    IsOctetStr g1 a.ip.o1 ∧ IsOctetStr g2 a.ip.o2 ∧
    IsOctetStr g3 a.ip.o3 ∧ IsOctetStr g4 a.ip.o4 ∧ IsPortStr p a.port

/-- Rejoining the groups of `splitOnSep` with the separator. -/
def joinSep (sep : Char) : List (List Char) → List Char
  | [] => []
  | [g] => g
  | g :: gs => g ++ sep :: joinSep sep gs

/-- Modelled from the spec: the `Counter` service of `common/counter.rs`
(not under `src/`): an opaque stateful instance; `Counter.new` is the
factory the host passes to the SSE listener and calls directly in stdio
mode.  A fresh instance carries the initial state. -/
structure Counter where
  count : Int
deriving DecidableEq, Repr

/-- Modelled from the spec: `Counter::new()`, the no-argument construction
operation. -/
def Counter.new : Counter := ⟨0⟩

/-- Modelled from the spec: the rmcp SSE listener's connection loop
(`SseServer::serve(addr)` / `.with_service(Counter::new)`, not under
`src/`): the listener state is the list of per-connection Service
Instances, and each inbound connection appends one freshly constructed
instance obtained from the registered factory. -/
def newConnection (conns : List Counter) : List Counter :=
  conns ++ [Counter.new]

/-- Modelled from the spec: a request handled on connection `i` transforms
that connection's own Service Instance and nothing else. -/
def handleRequest : Nat → (Counter → Counter) → List Counter → List Counter
  | _, _, [] => []
  | 0, f, c :: cs => f c :: cs
  | n + 1, f, c :: cs => c :: handleRequest n f cs

theorem splitFirstColon_sound :
    ∀ l a b, splitFirstColon l = some (a, b) →
      l = a ++ ':' :: b ∧ ':' ∉ a := by
  intro l
  induction l with
  | nil => intro a b h; simp [splitFirstColon] at h
  | cons c cs ih =>
    intro a b h
    by_cases hc : c = ':'
    · subst hc
      simp [splitFirstColon] at h
      obtain ⟨ha, hb⟩ := h
      subst ha; subst hb
      simp
    · rw [splitFirstColon, if_neg hc] at h
      cases hsc : splitFirstColon cs with
      | none => rw [hsc] at h; simp at h
      | some q =>
        rw [hsc] at h
        simp at h
        obtain ⟨h1, h2⟩ := h
        obtain ⟨hl, hm⟩ := ih q.1 q.2 hsc
        subst h1; subst h2
        refine ⟨by simp [hl], ?_⟩
        simp only [List.mem_cons, not_or]
        exact ⟨fun hco => hc hco.symm, hm⟩

theorem splitFirstColon_complete :
    ∀ a b, ':' ∉ a → splitFirstColon (a ++ ':' :: b) = some (a, b) := by
  intro a
  induction a with
  | nil => intro b _; simp [splitFirstColon]
  | cons c cs ih =>
    intro b hm
    simp only [List.mem_cons, not_or] at hm
    have hc : ¬(c = ':') := fun h => hm.1 h.symm
    rw [List.cons_append, splitFirstColon, if_neg hc, ih b hm.2]
    rfl

theorem splitOnSep_ne_nil (sep : Char) : ∀ l, splitOnSep sep l ≠ [] := by

  intro l
  induction l with
  | nil => simp [splitOnSep]
  | cons c cs ih =>
    rw [splitOnSep]
    by_cases hc : c = sep
    · simp [hc]
    · rw [if_neg hc]
      cases h : splitOnSep sep cs with
      | nil => simp
      | cons g gs => simp

theorem splitOnSep_join (sep : Char) :
    ∀ l, joinSep sep (splitOnSep sep l) = l := by
  intro l
  induction l with
  | nil => rfl
  | cons c cs ih =>
    rw [splitOnSep]
    by_cases hc : c = sep
    · rw [if_pos hc]
      cases h : splitOnSep sep cs with
      | nil => exact absurd h (splitOnSep_ne_nil sep cs)
      | cons g gs =>
        rw [h] at ih
        rw [joinSep]
        · simp [hc, ih]
        · simp
    · rw [if_neg hc]
      cases h : splitOnSep sep cs with
      | nil => exact absurd h (splitOnSep_ne_nil sep cs)
      | cons g gs =>
        rw [h] at ih
        cases gs with
        | nil => rw [joinSep]; rw [joinSep] at ih; simp [ih]
        | cons g2 gs2 =>
          rw [joinSep]
          · rw [joinSep] at ih
            · simp [ih]
            · simp
          · simp

theorem splitOnSep_sep_not_mem (sep : Char) :
    ∀ l g, g ∈ splitOnSep sep l → sep ∉ g := by
  intro l
  induction l with
  | nil => intro g hg; simp [splitOnSep] at hg; simp [hg]
  | cons c cs ih =>
    intro g hg
    rw [splitOnSep] at hg
    by_cases hc : c = sep
    · rw [if_pos hc] at hg
      rcases List.mem_cons.mp hg with h | h
      · simp [h]
      · exact ih g h
    · rw [if_neg hc] at hg
      cases h : splitOnSep sep cs with
      | nil => exact absurd h (splitOnSep_ne_nil sep cs)
      | cons g0 gs0 =>
        rw [h] at hg
        rcases List.mem_cons.mp hg with hh | hh
        · subst hh
          intro hmem
          rcases List.mem_cons.mp hmem with he | he
          · exact hc he.symm
          · exact ih g0 (h ▸ List.mem_cons_self g0 gs0) he
        · exact ih g (h ▸ List.mem_cons_of_mem g0 hh)

theorem splitOnSep_no_sep (sep : Char) :
    ∀ g, sep ∉ g → splitOnSep sep g = [g] := by
  intro g
  induction g with
  | nil => intro _; rfl
  | cons c cs ih =>
    intro hm
    simp only [List.mem_cons, not_or] at hm
    have hc : ¬(c = sep) := fun h => hm.1 h.symm
    rw [splitOnSep, if_neg hc, ih hm.2]

theorem splitOnSep_complete (sep : Char) :
    ∀ g rest, sep ∉ g →
      splitOnSep sep (g ++ sep :: rest) = g :: splitOnSep sep rest := by
  intro g
  induction g with
  | nil => intro rest _; simp [splitOnSep]
  | cons c cs ih =>
    intro rest hm
    simp only [List.mem_cons, not_or] at hm
    have hc : ¬(c = sep) := fun h => hm.1 h.symm
    rw [List.cons_append, splitOnSep, if_neg hc, ih rest hm.2]

theorem parseOctet_sound (l : List Char) (n : Nat) :
    parseOctet l = some n → IsOctetStr l n := by
  intro h
  rw [parseOctet] at h
  split at h
  · rename_i hcond
    obtain ⟨h1, h2, h3, h4, h5⟩ := hcond
    cases h
    exact ⟨h1, h2, h3, h4, rfl, h5⟩
  · exact absurd h (by simp)

theorem parseOctet_complete (l : List Char) (n : Nat) :
    IsOctetStr l n → parseOctet l = some n := by
  intro h
  obtain ⟨h1, h2, h3, h4, h5, h6⟩ := h
  rw [parseOctet, if_pos ⟨h1, h2, h3, h4, h5 ▸ h6⟩, h5]

theorem parsePort_sound (l : List Char) (n : Nat) :
    parsePort l = some n → IsPortStr l n := by
  intro h
  rw [parsePort] at h
  split at h
  · rename_i hcond
    obtain ⟨h1, h2, h3⟩ := hcond
    cases h
    exact ⟨h1, h2, rfl, h3⟩
  · exact absurd h (by simp)

theorem parsePort_complete (l : List Char) (n : Nat) :
    IsPortStr l n → parsePort l = some n := by
  intro h
  obtain ⟨h1, h2, h3, h4⟩ := h
  rw [parsePort, if_pos ⟨h1, h2, h3 ▸ h4⟩, h3]

theorem digit_ne_dot {c : Char} (h : c.isDigit = true) : ¬(c = '.') := by
  intro hc; subst hc; simp at h

theorem digit_ne_colon {c : Char} (h : c.isDigit = true) : ¬(c = ':') := by
  intro hc; subst hc; simp at h

theorem all_digit_dot_not_mem {l : List Char}
    (h : l.all Char.isDigit = true) : '.' ∉ l := by
  intro hm
  exact digit_ne_dot (List.all_eq_true.mp h '.' hm) rfl

theorem all_digit_colon_not_mem {l : List Char}
    (h : l.all Char.isDigit = true) : ':' ∉ l := by
  intro hm
  exact digit_ne_colon (List.all_eq_true.mp h ':' hm) rfl

theorem parseIpv4_sound (l : List Char) (ip : Ipv4Addr)
    (h : parseIpv4 l = some ip) :
    ∃ g1 g2 g3 g4, l = g1 ++ '.' :: (g2 ++ '.' :: (g3 ++ '.' :: g4)) ∧
      IsOctetStr g1 ip.o1 ∧ IsOctetStr g2 ip.o2 ∧
      IsOctetStr g3 ip.o3 ∧ IsOctetStr g4 ip.o4 := by
  rw [parseIpv4] at h
  split at h
  · rename_i a b c d hgs
    split at h
    · rename_i x y z w ho1 ho2 ho3 ho4
      cases h
      have hj := splitOnSep_join '.' l
      rw [hgs] at hj
      simp only [joinSep] at hj
      exact ⟨a, b, c, d, by simpa using hj.symm,
        parseOctet_sound a x ho1, parseOctet_sound b y ho2,
        parseOctet_sound c z ho3, parseOctet_sound d w ho4⟩
    · simp at h
  · simp at h

theorem parseIpv4_complete (g1 g2 g3 g4 : List Char) (x1 x2 x3 x4 : Nat)
    (h1 : IsOctetStr g1 x1) (h2 : IsOctetStr g2 x2)
    (h3 : IsOctetStr g3 x3) (h4 : IsOctetStr g4 x4) :
    parseIpv4 (g1 ++ '.' :: (g2 ++ '.' :: (g3 ++ '.' :: g4))) =
      some ⟨x1, x2, x3, x4⟩ := by
  have d1 : '.' ∉ g1 := all_digit_dot_not_mem h1.2.1
  have d2 : '.' ∉ g2 := all_digit_dot_not_mem h2.2.1
  have d3 : '.' ∉ g3 := all_digit_dot_not_mem h3.2.1
  have d4 : '.' ∉ g4 := all_digit_dot_not_mem h4.2.1
  rw [parseIpv4,
    splitOnSep_complete '.' g1 (g2 ++ '.' :: (g3 ++ '.' :: g4)) d1,
    splitOnSep_complete '.' g2 (g3 ++ '.' :: g4) d2,
    splitOnSep_complete '.' g3 g4 d3,
    splitOnSep_no_sep '.' g4 d4]
  simp only [parseOctet_complete g1 x1 h1, parseOctet_complete g2 x2 h2,
    parseOctet_complete g3 x3 h3, parseOctet_complete g4 x4 h4]

theorem parseSocketAddrChars_sound (l : List Char) (a : SocketAddr)
    (h : parseSocketAddrChars l = some a) : BindAddrDenotes l a := by
  rw [parseSocketAddrChars] at h
  cases hq : splitFirstColon l with
  | none => rw [hq] at h; simp at h
  | some q =>
    obtain ⟨hst, pt⟩ := q
    rw [hq] at h
    dsimp only at h
    cases hip : parseIpv4 hst with
    | none => rw [hip] at h; simp at h
    | some ip =>
      cases hpt : parsePort pt with
      | none => rw [hip, hpt] at h; simp at h
      | some port =>
        rw [hip, hpt] at h
        injection h with h
        subst h
        obtain ⟨hl, _⟩ := splitFirstColon_sound l hst pt hq
        obtain ⟨g1, g2, g3, g4, hdec, k1, k2, k3, k4⟩ :=
          parseIpv4_sound hst ip hip
        refine ⟨g1, g2, g3, g4, pt, ?_, k1, k2, k3, k4,
          parsePort_sound pt port hpt⟩
        rw [hl, hdec]
        simp [List.append_assoc]

theorem parseSocketAddrChars_complete (l : List Char) (a : SocketAddr)
    (h : BindAddrDenotes l a) : parseSocketAddrChars l = some a := by
  obtain ⟨g1, g2, g3, g4, p, hl, h1, h2, h3, h4, hp⟩ := h
  have hcol : ':' ∉ g1 ++ '.' :: (g2 ++ '.' :: (g3 ++ '.' :: g4)) := by
    intro hm
    simp only [List.mem_append, List.mem_cons] at hm
    rcases hm with hm | hm | hm
    · exact all_digit_colon_not_mem h1.2.1 hm
    · exact absurd hm (by decide)
    · rcases hm with hm | hm | hm
      · exact all_digit_colon_not_mem h2.2.1 hm
      · exact absurd hm (by decide)
      · rcases hm with hm | hm | hm
        · exact all_digit_colon_not_mem h3.2.1 hm
        · exact absurd hm (by decide)
        · exact all_digit_colon_not_mem h4.2.1 hm
  have hshape :
      l = (g1 ++ '.' :: (g2 ++ '.' :: (g3 ++ '.' :: g4))) ++ ':' :: p := by
    rw [hl]; simp [List.append_assoc]
  rw [hshape, parseSocketAddrChars,
    splitFirstColon_complete (g1 ++ '.' :: (g2 ++ '.' :: (g3 ++ '.' :: g4)))
      p hcol]
  simp only [parseIpv4_complete g1 g2 g3 g4 a.ip.o1 a.ip.o2 a.ip.o3 a.ip.o4
    h1 h2 h3 h4, parsePort_complete p a.port hp]

theorem handleRequest_other :
    ∀ (conns : List Counter) (i j : Nat) (f : Counter → Counter), i ≠ j →
      (handleRequest i f conns)[j]? = conns[j]? := by
  intro conns
  induction conns with
  | nil => intro i j f _; cases i <;> simp [handleRequest]
  | cons c cs ih =>
    intro i j f hij
    cases i with
    | zero =>
      cases j with
      | zero => exact absurd rfl hij
      | succ m => simp [handleRequest]
    | succ n =>
      cases j with
      | zero => simp [handleRequest]
      | succ m =>
        simp only [handleRequest, List.getElem?_cons_succ]
        exact ih n m f (fun h => hij (by rw [h]))

theorem newConnection_fresh (conns : List Counter) :
    (newConnection conns)[conns.length]? = some Counter.new := by
  rw [newConnection]
  induction conns with
  | nil => rfl
  | cons c cs ih => simp [ih]

/-- C1: in SSE mode, a syntactically invalid bind address makes `main`
return the parse error (a ConfigurationError) immediately: the exit result
is non-zero and `SseServer::serve` is never invoked, so no listener is
started. -/
theorem sse_invalid_bind_addr_is_fatal (b lvl : String) (w : World)
    (h : parseSocketAddr b = none) :
    (runMain ⟨TransportType.sse, b, lvl⟩ w).2 =
        ExitResult.err ProcessError.addrParseError ∧
    specClass ProcessError.addrParseError = SpecError.configurationError ∧
    (runMain ⟨TransportType.sse, b, lvl⟩ w).2 ≠ ExitResult.ok ∧
    Event.sseServeCalled ∉ (runMain ⟨TransportType.sse, b, lvl⟩ w).1 ∧
    Event.listenerStarted ∉ (runMain ⟨TransportType.sse, b, lvl⟩ w).1 := by
  simp [runMain, h, specClass]

/-- Witness for C1 at the spec's own scenario input `not-an-address`. -/
theorem sse_invalid_bind_addr_is_fatal_witness :
    parseSocketAddr "not-an-address" = none ∧
    ((runMain ⟨TransportType.sse, "not-an-address", "info"⟩
          ⟨true, true, true, true⟩).2 =
        ExitResult.err ProcessError.addrParseError ∧
      specClass ProcessError.addrParseError = SpecError.configurationError ∧
      (runMain ⟨TransportType.sse, "not-an-address", "info"⟩
          ⟨true, true, true, true⟩).2 ≠ ExitResult.ok ∧
      Event.sseServeCalled ∉ (runMain ⟨TransportType.sse, "not-an-address",
          "info"⟩ ⟨true, true, true, true⟩).1 ∧
      Event.listenerStarted ∉ (runMain ⟨TransportType.sse, "not-an-address",
          "info"⟩ ⟨true, true, true, true⟩).1) :=
  ⟨by decide, sse_invalid_bind_addr_is_fatal "not-an-address" "info"
    ⟨true, true, true, true⟩ (by decide)⟩

/-- C2: bind-address parsing is exactly the spec's grammar — a string
parses to the endpoint `a` iff it is a valid bind address whose written
host octets and port are exactly `a`'s fields (so every valid string
parses to the matching endpoint and every invalid string fails); and when
parsing fails in SSE mode, no listener is started and the exit is
non-zero. -/
theorem bind_addr_parse_exact :
    (∀ (l : List Char) (a : SocketAddr),
      parseSocketAddrChars l = some a ↔ BindAddrDenotes l a) ∧
    (∀ (s lvl : String) (w : World), parseSocketAddr s = none →
      Event.sseServeCalled ∉ (runMain ⟨TransportType.sse, s, lvl⟩ w).1 ∧
      Event.listenerStarted ∉ (runMain ⟨TransportType.sse, s, lvl⟩ w).1 ∧
      (runMain ⟨TransportType.sse, s, lvl⟩ w).2 ≠ ExitResult.ok) := by
  constructor
  · intro l a
    exact ⟨parseSocketAddrChars_sound l a, parseSocketAddrChars_complete l a⟩
  · intro s lvl w h
    simp [runMain, h]

/-- Witness for C2: the default bind address `127.0.0.1:8000` on the valid
side and `not-an-address` on the invalid side. -/
theorem bind_addr_parse_exact_witness :
    (parseSocketAddrChars ("127.0.0.1:8000".data) =
        some ⟨⟨127, 0, 0, 1⟩, 8000⟩ ↔
      BindAddrDenotes ("127.0.0.1:8000".data) ⟨⟨127, 0, 0, 1⟩, 8000⟩) ∧
    parseSocketAddr "not-an-address" = none ∧
    (Event.sseServeCalled ∉ (runMain ⟨TransportType.sse, "not-an-address",
        "debug"⟩ ⟨true, true, true, true⟩).1 ∧
      Event.listenerStarted ∉ (runMain ⟨TransportType.sse, "not-an-address",
        "debug"⟩ ⟨true, true, true, true⟩).1 ∧
      (runMain ⟨TransportType.sse, "not-an-address", "debug"⟩
        ⟨true, true, true, true⟩).2 ≠ ExitResult.ok) :=
  ⟨bind_addr_parse_exact.1 ("127.0.0.1:8000".data) ⟨⟨127, 0, 0, 1⟩, 8000⟩,
    by decide,
    bind_addr_parse_exact.2 "not-an-address" "debug"
      ⟨true, true, true, true⟩ (by decide)⟩

/-- C3: in SSE mode, on a run that reaches the running state (valid
address, listener started) and whose interrupt wait succeeds, the trace —
everything the host does before exiting — contains exactly one completed
interrupt wait and exactly one cancellation call, the wait strictly
precedes the cancellation, and the process then exits cleanly. -/
theorem sse_signal_once_cancel_once (b lvl : String) (w : World)
    (a : SocketAddr) (hp : parseSocketAddr b = some a)
    (hs : w.sseServeOk = true) (hc : w.ctrlCOk = true) :
    ((runMain ⟨TransportType.sse, b, lvl⟩ w).1).count Event.ctrlCAwaited
        = 1 ∧
    ((runMain ⟨TransportType.sse, b, lvl⟩ w).1).count Event.cancelCalled
        = 1 ∧
    ((runMain ⟨TransportType.sse, b, lvl⟩ w).1).indexOf Event.ctrlCAwaited <
      ((runMain ⟨TransportType.sse, b, lvl⟩ w).1).indexOf
        Event.cancelCalled ∧
    Event.cancelCalled ∈ (runMain ⟨TransportType.sse, b, lvl⟩ w).1 ∧
    (runMain ⟨TransportType.sse, b, lvl⟩ w).2 = ExitResult.ok := by
  have hr : runMain ⟨TransportType.sse, b, lvl⟩ w =
      ([Event.bindParseAttempted, Event.sseServeCalled,
        Event.listenerStarted, Event.withService, Event.ctrlCAwaited,
        Event.cancelCalled], ExitResult.ok) := by
    simp [runMain, hp, hs, hc]
  rw [hr]
  decide

/-- Witness for C3 at the default bind address with all external calls
succeeding. -/
theorem sse_signal_once_cancel_once_witness :
    parseSocketAddr "127.0.0.1:8000" = some ⟨⟨127, 0, 0, 1⟩, 8000⟩ ∧
    (((runMain ⟨TransportType.sse, "127.0.0.1:8000", "info"⟩
          ⟨true, true, true, true⟩).1).count Event.ctrlCAwaited = 1 ∧
      ((runMain ⟨TransportType.sse, "127.0.0.1:8000", "info"⟩
          ⟨true, true, true, true⟩).1).count Event.cancelCalled = 1 ∧
      ((runMain ⟨TransportType.sse, "127.0.0.1:8000", "info"⟩
          ⟨true, true, true, true⟩).1).indexOf Event.ctrlCAwaited <
        ((runMain ⟨TransportType.sse, "127.0.0.1:8000", "info"⟩
          ⟨true, true, true, true⟩).1).indexOf Event.cancelCalled ∧
      Event.cancelCalled ∈ (runMain ⟨TransportType.sse, "127.0.0.1:8000",
          "info"⟩ ⟨true, true, true, true⟩).1 ∧
      (runMain ⟨TransportType.sse, "127.0.0.1:8000", "info"⟩
          ⟨true, true, true, true⟩).2 = ExitResult.ok) :=
  ⟨by decide, sse_signal_once_cancel_once "127.0.0.1:8000" "info"
    ⟨true, true, true, true⟩ ⟨⟨127, 0, 0, 1⟩, 8000⟩ (by decide) rfl rfl⟩

/-- C4: in stdio mode the host constructs exactly one Counter, always
calls the stdio serve attachment, blocks on the wait exactly when
attachment succeeded, exits zero iff both attachment and wait succeed
(each failure is propagated as the corresponding fatal error —
AttachmentError for serve, SessionError for the wait), and no cancellation
path exists in this mode. -/
theorem stdio_lifecycle (b lvl : String) (w : World) :
    ((runMain ⟨TransportType.stdio, b, lvl⟩ w).1).count
        Event.counterConstructed = 1 ∧
    Event.stdioServeCalled ∈ (runMain ⟨TransportType.stdio, b, lvl⟩ w).1 ∧
    (Event.waitingCalled ∈ (runMain ⟨TransportType.stdio, b, lvl⟩ w).1 ↔
      w.stdioServeOk = true) ∧
    ((runMain ⟨TransportType.stdio, b, lvl⟩ w).2 = ExitResult.ok ↔
      w.stdioServeOk = true ∧ w.waitingOk = true) ∧
    ((runMain ⟨TransportType.stdio, b, lvl⟩ w).2 =
        ExitResult.err ProcessError.stdioServeError ↔
      w.stdioServeOk = false) ∧
    ((runMain ⟨TransportType.stdio, b, lvl⟩ w).2 =
        ExitResult.err ProcessError.waitingError ↔
      w.stdioServeOk = true ∧ w.waitingOk = false) ∧
    specClass ProcessError.stdioServeError = SpecError.attachmentError ∧
    specClass ProcessError.waitingError = SpecError.sessionError ∧
    Event.cancelCalled ∉ (runMain ⟨TransportType.stdio, b, lvl⟩ w).1 ∧
    Event.ctrlCAwaited ∉ (runMain ⟨TransportType.stdio, b, lvl⟩ w).1 := by
  obtain ⟨s1, s2, s3, s4⟩ := w
  cases s1 <;> cases s2 <;> simp [runMain, specClass]

/-- Witness for C4 on the run whose stdio attachment succeeds but whose
wait fails. -/
theorem stdio_lifecycle_witness :
    ((runMain ⟨TransportType.stdio, "unused", "info"⟩
        ⟨true, false, true, true⟩).1).count Event.counterConstructed = 1 ∧
    Event.stdioServeCalled ∈ (runMain ⟨TransportType.stdio, "unused",
        "info"⟩ ⟨true, false, true, true⟩).1 ∧
    (Event.waitingCalled ∈ (runMain ⟨TransportType.stdio, "unused",
        "info"⟩ ⟨true, false, true, true⟩).1 ↔
      (⟨true, false, true, true⟩ : World).stdioServeOk = true) ∧
    ((runMain ⟨TransportType.stdio, "unused", "info"⟩
        ⟨true, false, true, true⟩).2 = ExitResult.ok ↔
      (⟨true, false, true, true⟩ : World).stdioServeOk = true ∧
        (⟨true, false, true, true⟩ : World).waitingOk = true) ∧
    ((runMain ⟨TransportType.stdio, "unused", "info"⟩
        ⟨true, false, true, true⟩).2 =
        ExitResult.err ProcessError.stdioServeError ↔
      (⟨true, false, true, true⟩ : World).stdioServeOk = false) ∧
    ((runMain ⟨TransportType.stdio, "unused", "info"⟩
        ⟨true, false, true, true⟩).2 =
        ExitResult.err ProcessError.waitingError ↔
      (⟨true, false, true, true⟩ : World).stdioServeOk = true ∧
        (⟨true, false, true, true⟩ : World).waitingOk = false) ∧
    specClass ProcessError.stdioServeError = SpecError.attachmentError ∧
    specClass ProcessError.waitingError = SpecError.sessionError ∧
    Event.cancelCalled ∉ (runMain ⟨TransportType.stdio, "unused", "info"⟩
        ⟨true, false, true, true⟩).1 ∧
    Event.ctrlCAwaited ∉ (runMain ⟨TransportType.stdio, "unused", "info"⟩
        ⟨true, false, true, true⟩).1 :=
  stdio_lifecycle "unused" "info" ⟨true, false, true, true⟩

/-- C5: the process exits zero exactly on a clean shutdown — stdio
attachment and wait both succeeding, or a valid address, a started SSE
listener and a successfully received interrupt; the cancellation call is
issued exactly on the clean SSE shutdowns; and every failure site's error
is one of the spec's four fatal categories (every other exit is therefore
a non-zero exit carrying one of them, never retried or swallowed). -/
theorem exit_zero_iff_clean_shutdown (args : Args) (w : World) :
    ((runMain args w).2 = ExitResult.ok ↔
      ((args.transport = TransportType.stdio ∧ w.stdioServeOk = true ∧
          w.waitingOk = true) ∨
        (args.transport = TransportType.sse ∧
          parseSocketAddr args.bind_address ≠ none ∧
          w.sseServeOk = true ∧ w.ctrlCOk = true))) ∧
    (Event.cancelCalled ∈ (runMain args w).1 ↔
      args.transport = TransportType.sse ∧
        (runMain args w).2 = ExitResult.ok) ∧
    (∀ e : ProcessError,
      specClass e = SpecError.configurationError ∨
      specClass e = SpecError.bindError ∨
      specClass e = SpecError.attachmentError ∨
      specClass e = SpecError.sessionError) := by
  obtain ⟨t, b, lvl⟩ := args
  obtain ⟨s1, s2, s3, s4⟩ := w
  refine ⟨?_, ?_, fun e => by cases e <;> simp [specClass]⟩
  · cases t with
    | stdio => cases s1 <;> cases s2 <;> simp [runMain]
    | sse =>
      cases hp : parseSocketAddr b with
      | none => simp [runMain, hp]
      | some a => cases s3 <;> cases s4 <;> simp [runMain, hp]
  · cases t with
    | stdio => cases s1 <;> cases s2 <;> simp [runMain]
    | sse =>
      cases hp : parseSocketAddr b with
      | none => simp [runMain, hp]
      | some a => cases s3 <;> cases s4 <;> simp [runMain, hp]

/-- Witness for C5 on the clean SSE shutdown run at the default address. -/
theorem exit_zero_iff_clean_shutdown_witness :
    ((runMain ⟨TransportType.sse, "127.0.0.1:8000", "info"⟩
        ⟨true, true, true, true⟩).2 = ExitResult.ok ↔
      (((⟨TransportType.sse, "127.0.0.1:8000", "info"⟩ : Args).transport =
          TransportType.stdio ∧
          (⟨true, true, true, true⟩ : World).stdioServeOk = true ∧
          (⟨true, true, true, true⟩ : World).waitingOk = true) ∨
        ((⟨TransportType.sse, "127.0.0.1:8000", "info"⟩ : Args).transport =
          TransportType.sse ∧
          parseSocketAddr (⟨TransportType.sse, "127.0.0.1:8000", "info"⟩ :
            Args).bind_address ≠ none ∧
          (⟨true, true, true, true⟩ : World).sseServeOk = true ∧
          (⟨true, true, true, true⟩ : World).ctrlCOk = true))) ∧
    (Event.cancelCalled ∈ (runMain ⟨TransportType.sse, "127.0.0.1:8000",
        "info"⟩ ⟨true, true, true, true⟩).1 ↔
      (⟨TransportType.sse, "127.0.0.1:8000", "info"⟩ : Args).transport =
        TransportType.sse ∧
        (runMain ⟨TransportType.sse, "127.0.0.1:8000", "info"⟩
          ⟨true, true, true, true⟩).2 = ExitResult.ok) ∧
    (∀ e : ProcessError,
      specClass e = SpecError.configurationError ∨
      specClass e = SpecError.bindError ∨
      specClass e = SpecError.attachmentError ∨
      specClass e = SpecError.sessionError) :=
  exit_zero_iff_clean_shutdown ⟨TransportType.sse, "127.0.0.1:8000",
    "info"⟩ ⟨true, true, true, true⟩

/-- C6: the five recognized log-level strings select their levels, and any
other string falls back to the info level. -/
theorem log_level_mapping (s : String) :
    levelOf "trace" = Level.trace ∧ levelOf "debug" = Level.debug ∧
    levelOf "info" = Level.info ∧ levelOf "warn" = Level.warn ∧
    levelOf "error" = Level.error ∧
    (s ≠ "trace" → s ≠ "debug" → s ≠ "info" → s ≠ "warn" → s ≠ "error" →
      levelOf s = Level.info) := by
  refine ⟨rfl, rfl, rfl, rfl, rfl, fun h1 h2 h3 h4 h5 => ?_⟩
  unfold levelOf
  split <;> simp_all

/-- Witness for C6 at the unrecognized value `verbose`. -/
theorem log_level_mapping_witness :
    levelOf "trace" = Level.trace ∧ levelOf "debug" = Level.debug ∧
    levelOf "info" = Level.info ∧ levelOf "warn" = Level.warn ∧
    levelOf "error" = Level.error ∧ levelOf "verbose" = Level.info :=
  ⟨(log_level_mapping "verbose").1, (log_level_mapping "verbose").2.1,
    (log_level_mapping "verbose").2.2.1,
    (log_level_mapping "verbose").2.2.2.1,
    (log_level_mapping "verbose").2.2.2.2.1,
    (log_level_mapping "verbose").2.2.2.2.2 (by decide) (by decide)
      (by decide) (by decide) (by decide)⟩

/-- C7: at most one Transport Binding per run — no run performs both
attachment calls, a stdio run never touches the SSE branch (no bind-address
parse, no SSE serve call), and an SSE run never touches the stdio branch
(no stdio serve call, no startup Counter construction). -/
theorem single_transport_binding (args : Args) (w : World) :
    ¬(Event.stdioServeCalled ∈ (runMain args w).1 ∧
        Event.sseServeCalled ∈ (runMain args w).1) ∧
    (args.transport = TransportType.stdio →
      Event.sseServeCalled ∉ (runMain args w).1 ∧
      Event.bindParseAttempted ∉ (runMain args w).1) ∧
    (args.transport = TransportType.sse →
      Event.stdioServeCalled ∉ (runMain args w).1 ∧
      Event.counterConstructed ∉ (runMain args w).1) := by
  obtain ⟨t, b, lvl⟩ := args
  obtain ⟨s1, s2, s3, s4⟩ := w
  cases t with
  | stdio => cases s1 <;> cases s2 <;> simp [runMain]
  | sse =>
    cases hp : parseSocketAddr b with
    | none => simp [runMain, hp]
    | some a => cases s3 <;> cases s4 <;> simp [runMain, hp]

/-- Witness for C7: one stdio run and one SSE run, each avoiding the other
branch's transport. -/
theorem single_transport_binding_witness :
    (Event.sseServeCalled ∉ (runMain ⟨TransportType.stdio, "ignored",
        "info"⟩ ⟨true, true, true, true⟩).1 ∧
      Event.bindParseAttempted ∉ (runMain ⟨TransportType.stdio, "ignored",
        "info"⟩ ⟨true, true, true, true⟩).1) ∧
    (Event.stdioServeCalled ∉ (runMain ⟨TransportType.sse,
        "127.0.0.1:8000", "info"⟩ ⟨true, true, true, true⟩).1 ∧
      Event.counterConstructed ∉ (runMain ⟨TransportType.sse,
        "127.0.0.1:8000", "info"⟩ ⟨true, true, true, true⟩).1) :=
  ⟨(single_transport_binding ⟨TransportType.stdio, "ignored", "info"⟩
      ⟨true, true, true, true⟩).2.1 rfl,
    (single_transport_binding ⟨TransportType.sse, "127.0.0.1:8000",
      "info"⟩ ⟨true, true, true, true⟩).2.2 rfl⟩

/-- C8: in SSE mode every inbound connection receives a freshly
constructed Counter from the `Counter.new` factory (the instance appended
for the new connection is the initial instance, whatever the listener's
existing state), and connections never share state — handling a request on
one connection leaves every other connection's instance unchanged. -/
theorem sse_fresh_instance_per_connection :
    (∀ conns : List Counter,
      (newConnection conns)[conns.length]? = some Counter.new) ∧
    Counter.new.count = 0 ∧
    (∀ (i j : Nat) (f : Counter → Counter) (conns : List Counter), i ≠ j →
      (handleRequest i f conns)[j]? = conns[j]?) :=
  ⟨newConnection_fresh, rfl,
    fun i j f conns hij => handleRequest_other conns i j f hij⟩

/-- Witness for C8: a second connection joining a listener whose first
connection has state 5 still gets a fresh instance, and a request on
connection 1 leaves connection 0 unchanged. -/
theorem sse_fresh_instance_per_connection_witness :
    (newConnection [⟨5⟩])[1]? = some Counter.new ∧
    (1 : Nat) ≠ 0 ∧
    (handleRequest 1 (fun c => ⟨c.count + 1⟩) [⟨3⟩, ⟨4⟩])[0]? =
      ([⟨3⟩, ⟨4⟩] : List Counter)[0]? :=
  ⟨sse_fresh_instance_per_connection.1 [⟨5⟩], by decide,
    sse_fresh_instance_per_connection.2.2 1 0 (fun c => ⟨c.count + 1⟩)
      [⟨3⟩, ⟨4⟩] (by decide)⟩

/-- C9: stdio mode ignores the bind address — two stdio runs differing
only in the bind-address argument (valid or not) have identical traces and
exit results, and the bind address is never parsed. -/
theorem stdio_ignores_bind_address (b1 b2 lvl : String) (w : World) :
    runMain ⟨TransportType.stdio, b1, lvl⟩ w =
      runMain ⟨TransportType.stdio, b2, lvl⟩ w ∧
    Event.bindParseAttempted ∉
      (runMain ⟨TransportType.stdio, b1, lvl⟩ w).1 := by
  obtain ⟨s1, s2, s3, s4⟩ := w
  cases s1 <;> cases s2 <;> simp [runMain]

/-- Witness for C9: a valid and a syntactically invalid bind address give
the same stdio run. -/
theorem stdio_ignores_bind_address_witness :
    runMain ⟨TransportType.stdio, "127.0.0.1:8000", "warn"⟩
        ⟨true, true, true, true⟩ =
      runMain ⟨TransportType.stdio, "not-an-address", "warn"⟩
        ⟨true, true, true, true⟩ ∧
    Event.bindParseAttempted ∉
      (runMain ⟨TransportType.stdio, "127.0.0.1:8000", "warn"⟩
        ⟨true, true, true, true⟩).1 :=
  stdio_ignores_bind_address "127.0.0.1:8000" "not-an-address" "warn"
    ⟨true, true, true, true⟩

/-- C10: in SSE mode, when the listener started but the Ctrl+C wait itself
fails, `main` propagates that error — a non-zero exit — without ever
calling cancel on the listener handle, although the wait was reached. -/
theorem sse_ctrlc_failure_skips_cancel (b lvl : String) (w : World)
    (a : SocketAddr) (hp : parseSocketAddr b = some a)
    (hs : w.sseServeOk = true) (hc : w.ctrlCOk = false) :
    (runMain ⟨TransportType.sse, b, lvl⟩ w).2 =
        ExitResult.err ProcessError.ctrlCError ∧
    (runMain ⟨TransportType.sse, b, lvl⟩ w).2 ≠ ExitResult.ok ∧
    Event.cancelCalled ∉ (runMain ⟨TransportType.sse, b, lvl⟩ w).1 ∧
    Event.ctrlCAwaited ∈ (runMain ⟨TransportType.sse, b, lvl⟩ w).1 := by
  simp [runMain, hp, hs, hc]

/-- Witness for C10 at `0.0.0.0:9000` with a failing Ctrl+C wait. -/
theorem sse_ctrlc_failure_skips_cancel_witness :
    parseSocketAddr "0.0.0.0:9000" = some ⟨⟨0, 0, 0, 0⟩, 9000⟩ ∧
    ((runMain ⟨TransportType.sse, "0.0.0.0:9000", "info"⟩
          ⟨true, true, true, false⟩).2 =
        ExitResult.err ProcessError.ctrlCError ∧
      (runMain ⟨TransportType.sse, "0.0.0.0:9000", "info"⟩
          ⟨true, true, true, false⟩).2 ≠ ExitResult.ok ∧
      Event.cancelCalled ∉ (runMain ⟨TransportType.sse, "0.0.0.0:9000",
          "info"⟩ ⟨true, true, true, false⟩).1 ∧
      Event.ctrlCAwaited ∈ (runMain ⟨TransportType.sse, "0.0.0.0:9000",
          "info"⟩ ⟨true, true, true, false⟩).1) :=
  ⟨by decide, sse_ctrlc_failure_skips_cancel "0.0.0.0:9000" "info"
    ⟨true, true, true, false⟩ ⟨⟨0, 0, 0, 0⟩, 9000⟩ (by decide) rfl rfl⟩
